import Mathlib

/-!
Verification of the PreReq readiness-inference backend.

The numeric core (`backend/app/services/compute_service.py`) is embedded
shallowly over the rationals: Python floats become `ℚ` (so every value is
finite by construction and the source's NaN/Inf guards become identities,
which is noted at each such definition), `np.nan` markers for missing direct
readiness become `Option ℚ`, Python dicts become association lists with a
first-match lookup, and numpy matrices indexed by the positions of sorted,
duplicate-free identifier lists become functions of the identifiers
themselves.  Parts of the repository that the code under verification calls
but whose source files are absent (`graph_service.py`, `cluster_service.py`)
are modelled from the specification and are marked as such in their doc
comments.
-/

namespace PreReq

/-- Association-list with string keys, standing for a Python dict. -/
abbrev Dict (α : Type) := List (String × α)

/-- Python `d.get(k)` / `k in d`: first matching key wins. -/
def dictFind {α : Type} (d : Dict α) (k : String) : Option α :=
  (d.find? (fun p => p.1 == k)).map Prod.snd

/-- Python `d.get(k, default)`. -/
def dictGetD {α : Type} (d : Dict α) (k : String) (dflt : α) : α :=
  (dictFind d k).getD dflt

/-- Scores: student id -> (question id -> raw score). -/
abbrev Scores := Dict (Dict ℚ)

/-- Max scores: question id -> maximum possible score. -/
abbrev MaxScores := Dict ℚ

/-- Question-concept map: concept id -> list of (question id, weight). -/
abbrev QCMap := Dict (List (String × ℚ))

/-- The source's `_sanitize_float`: replaces NaN/Inf with 0.0.  Over `ℚ`
every value is finite, so the guard is the identity. -/
def sanitizeFloat (x : ℚ) : ℚ := x

/-- Coercion of a possibly-missing direct readiness to 0 for arithmetic use,
mirroring `np.where(np.isnan(...), 0.0, ...)` in the source. -/
def orZero (x : Option ℚ) : ℚ := x.getD 0

/-- The source's `max_scores.get(q_id, 1.0)` default. -/
def msOf (max_scores : MaxScores) (q : String) : ℚ := dictGetD max_scores q 1

/-- One cell of `compute_direct_readiness` (compute_service.py lines 34-79).
The source fills a `(students × concepts)` NaN-initialised matrix, one cell
per (student, concept) name pair; a cell's value depends only on the two
names, so the matrix is embedded as this per-cell function (the `concepts` /
`students` list arguments of the source fix only the matrix shape).  The
loop body accumulates `weighted_sum` and `weight_sum` over the concept's
tagged questions that the student attempted, normalising by the max score
when it is positive, and leaves the cell missing unless `weight_sum > 0`. -/
def compute_direct_readiness (scores : Scores) (max_scores : MaxScores)
    (question_concept_map : QCMap) (student concept : String) : Option ℚ :=
  let tagged := dictGetD question_concept_map concept []
  let student_scores := dictGetD scores student []
  let acc := tagged.foldl (fun (a : ℚ × ℚ) qw =>
    match dictFind student_scores qw.1 with
    | some sc =>
        let ms := msOf max_scores qw.1
        let normalized := if ms > 0 then sc / ms else 0
        (a.1 + qw.2 * normalized, a.2 + qw.2)
    | none => a) (0, 0)
  if acc.2 > 0 then some (acc.1 / acc.2) else none

/-- `compute_prerequisite_penalty` (compute_service.py lines 86-117), one
cell: the source walks `topo_order`, and for the iteration whose concept is
`c` adds `edge_weight(p, c) * max(0, threshold - D[s, p])` for every
positively-weighted parent `p`, coercing missing parent readiness to 0. -/
def compute_prerequisite_penalty (D : String → String → Option ℚ)
    (adj : String → String → ℚ) (concepts topo_order : List String)
    (threshold : ℚ) (s c : String) : ℚ :=
  topo_order.foldl (fun acc t =>
    if t = c then
      concepts.foldl (fun acc2 p =>
        if adj p c > 0 then acc2 + adj p c * max 0 (threshold - orZero (D s p))
        else acc2) acc
    else acc) 0

/-- `compute_downstream_boost` (compute_service.py lines 124-156), one cell:
sum of `(edge_weight(p, d) * 0.4) * D[s, d]` over positively-weighted
children `d` (missing readiness coerced to 0), then capped by
`np.minimum(boost, 0.2)`. -/
def compute_downstream_boost (D : String → String → Option ℚ)
    (adj : String → String → ℚ) (concepts : List String) (s p : String) : ℚ :=
  min
    (concepts.foldl (fun acc d =>
      if adj p d > 0 then acc + (adj p d * 0.4) * orZero (D s d) else acc) 0)
    0.2

/-- `np.clip(x, 0.0, 1.0)`. -/
def clamp01 (x : ℚ) : ℚ := min (max x 0) 1

/-- `compute_final_readiness` (compute_service.py lines 163-177), one cell:
`clamp(0, 1, alpha * D' - beta * P + gamma * B)` with missing direct
readiness coerced to 0.  The source's trailing `np.where(np.isfinite ...)`
NaN/Inf guard is the identity over `ℚ`. -/
def compute_final_readiness (D : String → String → Option ℚ)
    (P B : String → String → ℚ) (alpha beta gamma : ℚ) (s c : String) : ℚ :=
  clamp01 (alpha * orZero (D s c) - beta * P s c + gamma * B s c)

/-- `np.mean` over a list (population mean); `ℚ` division by zero yields 0,
matching the source's sanitisation of `np.mean([])` (NaN) to 0. -/
def listMean (l : List ℚ) : ℚ := l.sum / l.length

/-- `np.var` over a list: population variance. -/
def listVar (l : List ℚ) : ℚ :=
  ((l.map (fun x => (x - listMean l) ^ 2)).sum) / l.length

/-- Graph-neighbour variance factor of `compute_confidence` (compute_service.py
lines 220-239): collect the concepts adjacent to `concept` in either edge
direction; if there are none the variance is 0, otherwise take, for
`concept` and each neighbour, the mean of the non-missing direct-readiness
column entries (columns with no data contribute no mean), and return the
population variance of those means when at least two exist, else 0. -/
def neighborVariance (D : String → String → Option ℚ)
    (adj : String → String → ℚ) (concepts students : List String)
    (concept : String) : ℚ :=
  let neighbors := concepts.filter (fun c2 => adj concept c2 > 0 ∨ adj c2 concept > 0)
  if neighbors.isEmpty then 0
  else
    let means := (concept :: neighbors).filterMap (fun c2 =>
      let valid := students.filterMap (fun s => D s c2)
      if valid.isEmpty then none else some (listMean valid))
    if 1 < means.length then listVar means else 0

/-- `compute_confidence` (compute_service.py lines 184-250): the minimum of
three factor levels — tagged-question count, total max-score points over the
tagged questions, and neighbour variance — encoded through the source's
`levels` / `reverse` numeric dictionaries. -/
def compute_confidence (concept : String) (question_concept_map : QCMap)
    (max_scores : MaxScores) (D : String → String → Option ℚ)
    (concepts students : List String) (adj : String → String → ℚ) : String :=
  let tagged := dictGetD question_concept_map concept []
  let num_tagged := tagged.length
  let f1 := if num_tagged ≥ 3 then "high"
            else if num_tagged = 2 then "medium" else "low"
  let total_points := (tagged.map (fun qw => msOf max_scores qw.1)).sum
  let f2 := if total_points ≥ 10 then "high"
            else if total_points ≥ 5 then "medium" else "low"
  let variance := neighborVariance D adj concepts students concept
  let f3 := if variance < 0.15 then "high"
            else if variance ≤ 0.30 then "medium" else "low"
  let levelValue := fun (s : String) =>
    if s = "high" then 3 else if s = "medium" then 2 else (1 : Nat)
  let min_level := min (levelValue f1) (min (levelValue f2) (levelValue f3))
  if min_level = 3 then "high" else if min_level = 2 then "medium" else "low"

/-- One entry of a trace's `upstream_penalties` list. -/
structure UpstreamPenalty where
  concept_id : String
  readiness : ℚ
  edge_weight : ℚ
  penalty_contribution : ℚ
deriving DecidableEq, Repr

/-- One entry of a trace's `downstream_boosts` list. -/
structure DownstreamBoostEntry where
  concept_id : String
  readiness : ℚ
  validation_weight : ℚ
  boost_contribution : ℚ
deriving DecidableEq, Repr

/-- The `formula` block of an explanation trace. -/
structure TraceFormula where
  alpha : ℚ
  beta : ℚ
  gamma : ℚ
  direct_component : ℚ
  penalty_component : ℚ
  boost_component : ℚ
  final_readiness : ℚ
deriving DecidableEq, Repr

/-- A JSON-serialisable explanation trace for one (student, concept). -/
structure ExplanationTrace where
  concept_id : String
  student_id : String
  direct_readiness : Option ℚ
  confidence : String
  upstream_penalties : List UpstreamPenalty
  downstream_boosts : List DownstreamBoostEntry
  formula : TraceFormula
deriving DecidableEq, Repr

/-- Loop body of the upstream-penalty section of `build_explanation_trace`
(compute_service.py lines 293-306): a parent with a positive edge weight and
a positive readiness gap yields an entry; any other parent yields nothing. -/
def upstreamEntry (D : String → String → Option ℚ) (adj : String → String → ℚ)
    (threshold : ℚ) (student concept p : String) : Option UpstreamPenalty :=
  if adj p concept > 0 then
    if max 0 (threshold - orZero (D student p)) > 0 then
      some { concept_id := p
             readiness := sanitizeFloat (orZero (D student p))
             edge_weight := sanitizeFloat (adj p concept)
             penalty_contribution :=
               sanitizeFloat (adj p concept * max 0 (threshold - orZero (D student p))) }
    else none
  else none

/-- Loop body of the downstream-boost section of `build_explanation_trace`
(compute_service.py lines 308-320). -/
def downstreamEntry (D : String → String → Option ℚ) (adj : String → String → ℚ)
    (student concept d : String) : Option DownstreamBoostEntry :=
  if adj concept d > 0 then
    some { concept_id := d
           readiness := sanitizeFloat (orZero (D student d))
           validation_weight := sanitizeFloat (adj concept d * 0.4)
           boost_contribution :=
             sanitizeFloat ((adj concept d * 0.4) * orZero (D student d)) }
  else none

/-- `build_explanation_trace` (compute_service.py lines 257-322).  All
`_sanitize_float` applications are identities over `ℚ`. -/
def build_explanation_trace (student concept : String) (direct : Option ℚ)
    (penalty boost final : ℚ) (confidence : String)
    (adj : String → String → ℚ) (concepts : List String)
    (D : String → String → Option ℚ)
    (alpha beta gamma threshold : ℚ) : ExplanationTrace :=
  { concept_id := concept
    student_id := student
    direct_readiness := direct
    confidence := confidence
    upstream_penalties := concepts.filterMap (upstreamEntry D adj threshold student concept)
    downstream_boosts := concepts.filterMap (downstreamEntry D adj student concept)
    formula :=
      { alpha := alpha, beta := beta, gamma := gamma
        direct_component := sanitizeFloat (alpha * direct.getD 0)
        penalty_component := sanitizeFloat (beta * penalty)
        boost_component := sanitizeFloat (gamma * boost)
        final_readiness := sanitizeFloat final } }

/-- Sort a list of rationals ascending, for `np.median`. -/
def sortRats (l : List ℚ) : List ℚ := List.insertionSort (· ≤ ·) l

/-- `np.median`: middle element of the sorted values, or the average of the
two middle elements for an even count; empty input gives NaN in numpy, which
the source sanitises to 0. -/
def listMedian (l : List ℚ) : ℚ :=
  let s := sortRats l
  if s.length = 0 then 0
  else if s.length % 2 = 1 then s.getD (s.length / 2) 0
  else (s.getD (s.length / 2 - 1) 0 + s.getD (s.length / 2) 0) / 2

/-- One class-aggregate record.  The source stores `np.std` (the square root
of the population variance); the square root of a rational is in general
irrational, so the embedding keeps the variance itself in `var_readiness`
(no claim reads the standard deviation). -/
structure ClassAggregateR where
  concept_id : String
  mean_readiness : ℚ
  median_readiness : ℚ
  var_readiness : ℚ
  below_threshold_count : Nat
deriving DecidableEq, Repr

/-- `compute_class_aggregates` (compute_service.py lines 329-345): per-concept
mean / median / spread / strict below-threshold count over the concept's
column of the final-readiness matrix. -/
def compute_class_aggregates (F : String → String → ℚ)
    (concepts students : List String) (threshold : ℚ) : List ClassAggregateR :=
  concepts.map (fun c =>
    let vals := students.map (fun s => F s c)
    { concept_id := c
      mean_readiness := sanitizeFloat (listMean vals)
      median_readiness := sanitizeFloat (listMedian vals)
      var_readiness := listVar vals
      below_threshold_count := (vals.filter (fun v => v < threshold)).length })

/-- A node record of a graph payload (`{"id": ..., "label": ...}`). -/
structure GraphNode where
  id : String
  label : String
deriving DecidableEq, Repr

/-- An edge record of a graph payload.  The `weight` key may be absent
(`none`); `run_readiness_pipeline` reads it with `data.get("weight", 0.5)`. -/
structure GraphEdge where
  source : String
  target : String
  weight : Option ℚ
deriving DecidableEq, Repr

/-- A graph JSON payload: `{"nodes": [...], "edges": [...]}`. -/
structure GraphJson where
  nodes : List GraphNode
  edges : List GraphEdge
deriving DecidableEq, Repr

/-- The node-identifier set of the built graph.  Modelled from the spec:
`graph_service.build_graph` (its source file is absent from the repository)
constructs a directed graph whose node set is the payload's node ids;
duplicate ids collapse into one node. -/
def graphNodeIds (g : GraphJson) : List String := (g.nodes.map (fun n => n.id)).dedup

/-- Adjacency-matrix entry built by `run_readiness_pipeline`
(compute_service.py lines 374-376): iterate the edge records, assigning
`data.get("weight", 0.5)` at (source, target); a later record for the same
pair overwrites an earlier one, and absent pairs stay 0. -/
def adjacencyOf (edges : List GraphEdge) (u v : String) : ℚ :=
  edges.foldl (fun acc e =>
    if e.source = u ∧ e.target = v then e.weight.getD 0.5 else acc) 0

/-- Does `n` have an incoming edge whose source is still in `rem`? -/
def hasIncomingFrom (edges : List GraphEdge) (rem : List String) (n : String) : Bool :=
  edges.any (fun e => e.target == n && rem.contains e.source)

/-- Kahn topological ordering with explicit fuel: repeatedly emit, in stable
list order, the remaining nodes with no incoming edge from the remaining
set.  If no node is ready (a cycle) or the fuel runs out, the remaining
nodes are appended as-is, so the result is always a permutation of the
input. -/
def kahnOrder (fuel : Nat) (edges : List GraphEdge) (rem : List String) : List String :=
  match fuel with
  | 0 => rem
  | fuel' + 1 =>
    let ready := rem.filter (fun n => ! hasIncomingFrom edges rem n)
    if ready.isEmpty then rem
    else ready ++ kahnOrder fuel' edges (rem.filter (fun n => hasIncomingFrom edges rem n))

/-- Modelled from the spec: `graph_service.get_topological_order` (source file
absent) returns a valid topological order of the graph's nodes with ties
broken by stable input ordering; Kahn's algorithm with the node count as
fuel realises this. -/
def get_topological_order (g : GraphJson) : List String :=
  kahnOrder (graphNodeIds g).length g.edges (graphNodeIds g)

/-- Iteratively discard nodes with no incoming edge from the surviving set;
the fixpoint is empty exactly when the graph restricted to `rem` is acyclic. -/
def kahnRemainder (fuel : Nat) (edges : List GraphEdge) (rem : List String) : List String :=
  match fuel with
  | 0 => rem
  | fuel' + 1 =>
    let rem' := rem.filter (fun n => hasIncomingFrom edges rem n)
    if rem'.length = rem.length then rem'
    else kahnRemainder fuel' edges rem'

/-- First predecessor of `n` within `rem`. -/
def predIn (edges : List GraphEdge) (rem : List String) (n : String) : Option String :=
  (edges.find? (fun e => e.target == n && rem.contains e.source)).map (fun e => e.source)

/-- Walk backwards along predecessors inside `rem`, collecting the visited
nodes; used to report a representative cycle path. -/
def walkBack (edges : List GraphEdge) (rem : List String) : Nat → String → List String
  | 0, n => [n]
  | fuel + 1, n =>
    match predIn edges rem n with
    | some m => n :: walkBack edges rem fuel m
    | none => [n]

/-- Modelled from the spec: cycle detection of `graph_service` (source file
absent) — `none` when the graph is a DAG, otherwise a representative path
inside the non-eliminable remainder of Kahn's algorithm. -/
def findCyclePath (g : GraphJson) : Option (List String) :=
  let ids := graphNodeIds g
  match kahnRemainder ids.length g.edges ids with
  | [] => none
  | n :: rest => some (walkBack g.edges (n :: rest) (rest.length + 1) n)

/-- DAG test: no cycle path is found. -/
def isDagB (g : GraphJson) : Bool := (findCyclePath g).isNone

/-- A structural error reported by graph validation or patching. -/
structure GraphError where
  message : String
deriving DecidableEq, Repr

/-- The schema `GraphPatchRequest`: batched add/remove of nodes and edges. -/
structure GraphPatchRequest where
  add_nodes : List GraphNode := []
  remove_nodes : List String := []
  add_edges : List GraphEdge := []
  remove_edges : List GraphEdge := []
deriving DecidableEq, Repr

/-- Modelled from the spec: step (a) of `graph_service.apply_patch` (source
file absent) — accumulate an error for each added node whose id already
exists among the existing plus previously-added ids, and for each removal of
a nonexistent node. -/
def patchErrors (g : GraphJson) (p : GraphPatchRequest) : List GraphError :=
  let existing := g.nodes.map (fun n => n.id)
  let allIds := existing ++ p.add_nodes.map (fun n => n.id)
  (p.add_nodes.filter (fun n => allIds.count n.id > 1)).map
      (fun n => { message := "duplicate node id " ++ n.id })
    ++ (p.remove_nodes.filter (fun nid => ¬ existing.contains nid)).map
      (fun nid => { message := "cannot remove nonexistent node " ++ nid })

/-- Modelled from the spec: step (c) of `graph_service.apply_patch` (source
file absent) — tentatively apply all edits: drop removed nodes and their
incident edges, append added nodes and edges, drop removed edges by
(source, target), and auto-create any added-edge endpoint not present. -/
def applyEdits (g : GraphJson) (p : GraphPatchRequest) : GraphJson :=
  let keptNodes := g.nodes.filter (fun n => ¬ p.remove_nodes.contains n.id)
  let newNodes := keptNodes ++ p.add_nodes
  let keptEdges := g.edges.filter (fun e =>
    ¬ p.remove_nodes.contains e.source ∧ ¬ p.remove_nodes.contains e.target)
  let edges1 := keptEdges ++ p.add_edges
  let edges2 := edges1.filter (fun e =>
    ¬ p.remove_edges.any (fun r => r.source == e.source && r.target == e.target))
  let presentIds := newNodes.map (fun n => n.id)
  let auto := ((p.add_edges.flatMap (fun e => [e.source, e.target])).filter
    (fun x => ¬ presentIds.contains x)).dedup
  { nodes := newNodes ++ auto.map (fun x => { id := x, label := x }),
    edges := edges2 }

/-- Modelled from the spec: `graph_service.apply_patch` (source file absent)
— atomic patch application.  Per spec section 4.1: (a)/(b) on any node-level
error return the original graph with the error list; (c) otherwise apply all
edits tentatively; (d) if the candidate is cyclic, roll back entirely and
report the cycle path; (e) on success return the new graph with
`is_dag = true`. -/
def apply_patch (g : GraphJson) (p : GraphPatchRequest) :
    GraphJson × Bool × Option (List String) × List GraphError :=
  let errs := patchErrors g p
  if errs.isEmpty then
    let cand := applyEdits g p
    match findCyclePath cand with
    | some path => (g, false, some path, [{ message := "cycle detected" }])
    | none => (cand, true, none, [])
  else (g, isDagB g, none, errs)

/-- Lexicographic ascending sort of identifiers, Python `sorted`. -/
def sortStrings (l : List String) : List String := List.insertionSort (· ≤ ·) l

/-- One record of the pipeline's `readiness_results` list. -/
structure ReadinessCellR where
  student_id : String
  concept_id : String
  direct_readiness : Option ℚ
  prerequisite_penalty : ℚ
  downstream_boost : ℚ
  final_readiness : ℚ
  confidence : String
  explanation_trace : ExplanationTrace
deriving DecidableEq, Repr

/-- The dictionary returned by `run_readiness_pipeline`.  The matrices are
embedded as functions of the (sorted, duplicate-free) identifiers; the raw
graph object of the source's return value is omitted (no claim reads it). -/
structure PipelineResult where
  readiness_results : List ReadinessCellR
  class_aggregates : List ClassAggregateR
  concepts : List String
  students : List String
  adjacency : String → String → ℚ
  direct_readiness_matrix : String → String → Option ℚ
  final_readiness_matrix : String → String → ℚ

/-- Body of `run_readiness_pipeline` (compute_service.py lines 378-442)
after the orderings, adjacency and topological order have been fixed: run
the four stages and emit one readiness record per (student, concept) in
nested sorted order together with the class aggregates. -/
def pipelineFrom (scores : Scores) (max_scores : MaxScores)
    (question_concept_map : QCMap) (concepts students : List String)
    (adj : String → String → ℚ) (topo : List String)
    (alpha beta gamma threshold : ℚ) : PipelineResult :=
  let D := fun s c => compute_direct_readiness scores max_scores question_concept_map s c
  let P := fun s c => compute_prerequisite_penalty D adj concepts topo threshold s c
  let B := fun s c => compute_downstream_boost D adj concepts s c
  let F := fun s c => compute_final_readiness D P B alpha beta gamma s c
  { readiness_results := students.flatMap (fun s => concepts.map (fun c =>
      let conf := compute_confidence c question_concept_map max_scores D concepts students adj
      { student_id := s
        concept_id := c
        direct_readiness := D s c
        prerequisite_penalty := sanitizeFloat (P s c)
        downstream_boost := sanitizeFloat (B s c)
        final_readiness := sanitizeFloat (F s c)
        confidence := conf
        explanation_trace := build_explanation_trace s c (D s c)
          (sanitizeFloat (P s c)) (sanitizeFloat (B s c)) (sanitizeFloat (F s c))
          conf adj concepts D alpha beta gamma threshold }))
    class_aggregates := compute_class_aggregates F concepts students threshold
    concepts := concepts
    students := students
    adjacency := adj
    direct_readiness_matrix := D
    final_readiness_matrix := F }

/-- `run_readiness_pipeline` (compute_service.py lines 352-442): build the
graph, sort the concept and student identifier sets lexicographically, build
the adjacency matrix with the 0.5 default for edge records carrying no
weight, compute the topological order, and run the staged pipeline.  Python
dict keys are unique, so the student key set is `dedup`-ed before sorting.
The source's NaN/range assertions on the final matrix are the subject of
theorem `final_readiness_bounded`. -/
def run_readiness_pipeline (scores : Scores) (max_scores : MaxScores)
    (question_concept_map : QCMap) (graph_json : GraphJson)
    (alpha beta gamma threshold : ℚ) : PipelineResult :=
  pipelineFrom scores max_scores question_concept_map
    (sortStrings (graphNodeIds graph_json))
    (sortStrings ((scores.map Prod.fst).dedup))
    (adjacencyOf graph_json.edges)
    (get_topological_order graph_json)
    alpha beta gamma threshold

/-- One cluster record of a clustering result. -/
structure ClusterR where
  cluster_label : String
  centroid : List ℚ
  student_count : Nat
  top_weak_concepts : List String
deriving DecidableEq, Repr

/-- The dictionary returned by `run_clustering`. -/
structure ClusteringResult where
  clusters : List ClusterR
  assignments : List (String × String)
deriving DecidableEq, Repr

/-- Squared euclidean distance between two readiness row-vectors. -/
def sqDist (a b : List ℚ) : ℚ := (List.zipWith (fun x y => (x - y) ^ 2) a b).sum

/-- Index of the first minimum of a list (ties to the lowest index). -/
def argminIdx (l : List ℚ) : Nat :=
  (l.foldl (fun (acc : Nat × Nat × Option ℚ) x =>
    match acc.2.2 with
    | none => (acc.2.1, acc.2.1 + 1, some x)
    | some best =>
        if x < best then (acc.2.1, acc.2.1 + 1, some x)
        else (acc.1, acc.2.1 + 1, some best)) (0, 0, none)).1

/-- Assign every row to its nearest centre. -/
def assignRows (centers : List (List ℚ)) (rows : List (List ℚ)) : List Nat :=
  rows.map (fun r => argminIdx (centers.map (fun c => sqDist c r)))

/-- Componentwise mean of the rows assigned to centre `i`, keeping the old
centre when no row is assigned (no empty cluster gets an undefined
centroid). -/
def updateCenters (kEff width : Nat) (rows : List (List ℚ)) (assigns : List Nat)
    (old : List (List ℚ)) : List (List ℚ) :=
  (List.range kEff).map (fun i =>
    let members := ((rows.zip assigns).filter (fun ra => ra.2 = i)).map Prod.fst
    if members.isEmpty then (old.getD i [])
    else (List.range width).map (fun j =>
      listMean (members.map (fun m => m.getD j 0))))

/-- A fixed number of assign/update rounds. -/
def kmeansLoop (width : Nat) (rows : List (List ℚ)) :
    Nat → List (List ℚ) → List (List ℚ)
  | 0, centers => centers
  | n + 1, centers =>
      kmeansLoop width rows n (updateCenters centers.length width rows (assignRows centers rows) centers)

/-- The up-to-3 concepts with the lowest centroid values, ascending. -/
def topWeakConcepts (concepts : List String) (centroid : List ℚ) : List String :=
  ((List.insertionSort (fun (a b : String × ℚ) => a.2 ≤ b.2)
    (concepts.zip centroid)).take 3).map Prod.fst

/-- Modelled from the spec: `cluster_service.run_clustering` (source file
absent).  Spec section 4.4: partition the students' readiness row-vectors
into at most `k` groups by bounded fixed-seed k-means — deterministic
initialisation (the fixed seed) is modelled by seeding with the first
`min k n` rows; labels are ordinal strings; fewer students than `k` degrades
to one cluster per student; empty clusters are dropped rather than reported
with undefined centroids; each cluster carries its up-to-3 weakest
centroid concepts. -/
def run_clustering (matrix : String → String → ℚ) (concepts students : List String)
    (k : Nat := 4) : ClusteringResult :=
  let kEff := min k students.length
  let rows := students.map (fun s => concepts.map (fun c => matrix s c))
  let initCenters := rows.take kEff
  let centers := kmeansLoop concepts.length rows 10 initCenters
  let assigns := assignRows centers rows
  let clusters := (List.range kEff).filterMap (fun i =>
    let count := (assigns.filter (fun a => a = i)).length
    if count = 0 then none
    else some
      { cluster_label := "cluster_" ++ toString i
        centroid := centers.getD i []
        student_count := count
        top_weak_concepts := topWeakConcepts concepts (centers.getD i []) })
  { clusters := clusters
    assignments := (students.zip assigns).map (fun sa => (sa.1, "cluster_" ++ toString sa.2)) }

/-- One intervention candidate. -/
structure InterventionR where
  concept_id : String
  students_affected : Nat
  downstream_concepts : Nat
  current_readiness : ℚ
  impact : ℚ
deriving DecidableEq, Repr

/-- Modelled from the spec: `cluster_service.rank_interventions` (source file
absent).  Spec section 4.4: for each concept whose mean final readiness is
below the threshold, count the students below threshold, count direct
children with a floor of 1, score
`impact = students_affected * downstream_concepts * (1 - mean)`, and sort
descending by impact; concepts at or above threshold are excluded. -/
def rank_interventions (F : String → String → ℚ) (concepts students : List String)
    (adj : String → String → ℚ) (threshold : ℚ) : List InterventionR :=
  let cands := concepts.filterMap (fun c =>
    let vals := students.map (fun s => F s c)
    let m := listMean vals
    if m < threshold then
      let affected := (vals.filter (fun v => v < threshold)).length
      let downstream := max 1 (concepts.filter (fun d => adj c d > 0)).length
      some { concept_id := c, students_affected := affected,
             downstream_concepts := downstream, current_readiness := m,
             impact := (affected : ℚ) * (downstream : ℚ) * (1 - m) }
    else none)
  List.insertionSort (fun (a b : InterventionR) => b.impact ≤ a.impact) cands

/-- One joined (Score, Question) row fetched by the compute runner. -/
structure ScoreRow where
  student_id : String
  question_id : String
  score : ℚ
  max_score : ℚ
deriving DecidableEq, Repr

/-- One joined (QuestionConceptMap, Question) row fetched by the runner. -/
structure QcmRow where
  concept_id : String
  question_id : String
  weight : ℚ
deriving DecidableEq, Repr

/-- `scores_dict` built by `run_compute_pipeline_for_run`
(compute_runner_service.py lines 87-92): group the score rows by student,
keeping row order per student; a later duplicate (student, question) row
overwrites an earlier one, which first-match lookup realises on the reversed
per-student row list. -/
def scoresDictOf (rows : List ScoreRow) : Scores :=
  (rows.map (fun r => r.student_id)).dedup.map (fun sid =>
    (sid, (rows.filterMap (fun r =>
      if r.student_id = sid then some (r.question_id, r.score) else none)).reverse))

/-- `max_scores_dict` of the runner: question id to max score, last row
winning. -/
def maxScoresOf (rows : List ScoreRow) : MaxScores :=
  (rows.map (fun r => (r.question_id, r.max_score))).reverse

/-- `question_concept_map` built by the runner (lines 105-109): group the
mapping rows by concept, keeping row order. -/
def qcmOf (rows : List QcmRow) : QCMap :=
  (rows.map (fun r => r.concept_id)).dedup.map (fun cid =>
    (cid, rows.filterMap (fun r =>
      if r.concept_id = cid then some (r.question_id, r.weight) else none)))

/-- The rows persisted for an exam by the compute runner: readiness results,
class aggregates, clusters with assignments, and interventions.  (The
`compute_run` status record and the per-student report tokens are bookkeeping
outside the computation and are not modelled.) -/
structure DbState where
  readiness : List ReadinessCellR
  aggregates : List ClassAggregateR
  clusters : List ClusterR
  assignments : List (String × String)
  interventions : List InterventionR

/-- The input-data errors of the runner: HTTP 400 for missing scores or
missing question-concept mapping. -/
inductive InputDataError where
  | noScores
  | noMapping
deriving DecidableEq, Repr

/-- The success summary returned by the runner. -/
structure RunSummary where
  students_processed : Nat
  concepts_processed : Nat
deriving DecidableEq, Repr

/-- `run_compute_pipeline_for_run` (compute_runner_service.py lines 72-255):
if no score rows exist, or no question-concept-map rows exist, the
invocation fails with an input-data error before anything derived is
computed or persisted — the error branches leave the stored state untouched.
Otherwise the prior derived rows are deleted and replaced wholesale from the
pipeline, clustering, and intervention results.  (The auto-generated
fallback graph for exams with no stored graph is not modelled; the payload
is a parameter.) -/
def run_compute_pipeline_for_run (db : DbState) (score_rows : List ScoreRow)
    (qcm_rows : List QcmRow) (graph_json : GraphJson)
    (alpha beta gamma threshold : ℚ) (k : Nat) :
    DbState × Except InputDataError RunSummary :=
  if score_rows.isEmpty then (db, Except.error InputDataError.noScores)
  else if qcm_rows.isEmpty then (db, Except.error InputDataError.noMapping)
  else
    let scores := scoresDictOf score_rows
    let max_scores := maxScoresOf score_rows
    let qcm := qcmOf qcm_rows
    let res := run_readiness_pipeline scores max_scores qcm graph_json alpha beta gamma threshold
    let clus := run_clustering res.final_readiness_matrix res.concepts res.students k
    let ivs := rank_interventions res.final_readiness_matrix res.concepts res.students
      res.adjacency threshold
    ({ readiness := res.readiness_results
       aggregates := res.class_aggregates
       clusters := clus.clusters
       assignments := clus.assignments
       interventions := ivs },
     Except.ok { students_processed := res.students.length,
                 concepts_processed := res.concepts.length })

/-! Specification-side definitions, written from the claims' own wording, to
be compared with the definitions embedded from the source. -/

/-- The tagged questions of a concept. -/
def taggedOf (question_concept_map : QCMap) (concept : String) : List (String × ℚ) :=
  dictGetD question_concept_map concept []

/-- The tagged questions of a concept that a student attempted. -/
def attemptedQuestions (tagged : List (String × ℚ)) (student_scores : Dict ℚ) :
    List (String × ℚ) :=
  tagged.filter (fun qw => (dictFind student_scores qw.1).isSome)

/-- The attempted tagged questions of `concept` for `student`. -/
def attemptedOf (scores : Scores) (question_concept_map : QCMap)
    (student concept : String) : List (String × ℚ) :=
  attemptedQuestions (taggedOf question_concept_map concept) (dictGetD scores student [])

/-- Claim formula for Stage 1: the sum of `w_q * (score / maxscore_q)` over
the tagged questions the student attempted, divided by the sum of `w_q` over
those same questions. -/
def directReadinessFormula (scores : Scores) (max_scores : MaxScores)
    (question_concept_map : QCMap) (student concept : String) : ℚ :=
  let student_scores := dictGetD scores student []
  let attempted := attemptedOf scores question_concept_map student concept
  ((attempted.map (fun qw =>
      qw.2 * ((dictFind student_scores qw.1).getD 0 / msOf max_scores qw.1))).sum)
    / ((attempted.map Prod.snd).sum)

/-- Claim formula for Stage 2: the sum over parents `p` of `c` (the concepts
with a positive edge weight into `c`) of
`edge_weight(p, c) * max(0, threshold - D[s, p])`, missing `D[s, p]`
treated as 0. -/
def penaltyFormula (D : String → String → Option ℚ) (adj : String → String → ℚ)
    (concepts : List String) (threshold : ℚ) (s c : String) : ℚ :=
  (((concepts.filter (fun p => adj p c > 0)).map
    (fun p => adj p c * max 0 (threshold - orZero (D s p)))).sum)

/-- Claim formula for Stage 3: `min(0.2, sum over children d of p of
(edge_weight(p, d) * 0.4) * D[s, d])`, missing `D[s, d]` treated as 0. -/
def boostFormula (D : String → String → Option ℚ) (adj : String → String → ℚ)
    (concepts : List String) (s p : String) : ℚ :=
  min 0.2
    (((concepts.filter (fun d => adj p d > 0)).map
      (fun d => (adj p d * 0.4) * orZero (D s d))).sum)

/-- A qualitative confidence level. -/
inductive ConfLevel where
  | low
  | medium
  | high
deriving DecidableEq, Repr

/-- Numeric rank of a level, for taking the weakest. -/
def ConfLevel.rank : ConfLevel → Nat
  | .low => 1
  | .medium => 2
  | .high => 3

/-- Render a level the way the source reports it. -/
def ConfLevel.toLabel : ConfLevel → String
  | .low => "low"
  | .medium => "medium"
  | .high => "high"

/-- The weaker of two levels. -/
def minLevel (a b : ConfLevel) : ConfLevel := if a.rank ≤ b.rank then a else b

/-- Claim factor: tagged-question count, `>= 3` high, `= 2` medium, else low. -/
def questionCountLevel (n : Nat) : ConfLevel :=
  if n ≥ 3 then .high else if n = 2 then .medium else .low

/-- Claim factor: total max-score points, `>= 10` high, 5-9 medium, `< 5` low. -/
def pointsLevel (p : ℚ) : ConfLevel :=
  if p ≥ 10 then .high else if p ≥ 5 then .medium else .low

/-- Claim factor: neighbour variance, `< 0.15` high, up to 0.30 inclusive
medium, above low. -/
def varianceLevel (v : ℚ) : ConfLevel :=
  if v < 0.15 then .high else if v ≤ 0.30 then .medium else .low

/-- Claim formula for confidence: the weakest of the three factor levels. -/
def confidenceFormula (concept : String) (question_concept_map : QCMap)
    (max_scores : MaxScores) (D : String → String → Option ℚ)
    (concepts students : List String) (adj : String → String → ℚ) : String :=
  let tagged := dictGetD question_concept_map concept []
  let f1 := questionCountLevel tagged.length
  let f2 := pointsLevel ((tagged.map (fun qw => msOf max_scores qw.1)).sum)
  let f3 := varianceLevel (neighborVariance D adj concepts students concept)
  (minLevel f1 (minLevel f2 f3)).toLabel

/-! Helper lemmas. -/

/-- A conditional-accumulation fold is the initial value plus a sum. -/
theorem foldl_ite_add {α : Type} (p : α → Prop) [DecidablePred p] (f : α → ℚ) :
    ∀ (l : List α) (init : ℚ),
      l.foldl (fun acc x => if p x then acc + f x else acc) init
        = init + (l.map (fun x => if p x then f x else 0)).sum := by
  intro l
  induction l with
  | nil => intro init; simp
  | cons a l ih =>
    intro init
    simp only [List.foldl_cons, List.map_cons, List.sum_cons]
    by_cases h : p a
    · rw [if_pos h, if_pos h, ih]; ring
    · rw [if_neg h, if_neg h, ih]; ring

/-- A sum of zero-padded conditional terms equals the sum over the filter. -/
theorem sum_map_ite {α : Type} (p : α → Prop) [DecidablePred p] (f : α → ℚ)
    (l : List α) :
    (l.map (fun x => if p x then f x else 0)).sum
      = ((l.filter (fun x => p x)).map f).sum := by
  induction l with
  | nil => simp
  | cons a l ih =>
    by_cases h : p a <;>
      simp [List.filter_cons, h, ih]

/-- The Stage-1 accumulation loop, characterised: starting from `(a, b)` it
adds the weighted normalised scores and the weights of the attempted tagged
questions. -/
theorem direct_foldl (sscores : Dict ℚ) (max_scores : MaxScores) :
    ∀ (tagged : List (String × ℚ)) (a b : ℚ),
      tagged.foldl (fun (acc : ℚ × ℚ) qw =>
        match dictFind sscores qw.1 with
        | some sc =>
            let ms := msOf max_scores qw.1
            let normalized := if ms > 0 then sc / ms else 0
            (acc.1 + qw.2 * normalized, acc.2 + qw.2)
        | none => acc) (a, b)
      = (a + ((attemptedQuestions tagged sscores).map (fun qw =>
            qw.2 * (if msOf max_scores qw.1 > 0
              then (dictFind sscores qw.1).getD 0 / msOf max_scores qw.1 else 0))).sum,
         b + ((attemptedQuestions tagged sscores).map Prod.snd).sum) := by
  intro tagged
  induction tagged with
  | nil => intro a b; simp [attemptedQuestions]
  | cons qw tl ih =>
    intro a b
    rcases h : dictFind sscores qw.1 with _ | sc
    · have ha : attemptedQuestions (qw :: tl) sscores = attemptedQuestions tl sscores := by
        simp [attemptedQuestions, List.filter_cons, h]
      simp only [List.foldl_cons, h, ha]
      exact ih a b
    · simp only [List.foldl_cons, h]
      rw [ih]
      simp [attemptedQuestions, List.filter_cons, h]
      constructor <;> ring

/-- The inner Stage-2 parent loop adds `penaltyFormula` to the accumulator. -/
theorem penalty_inner_foldl (D : String → String → Option ℚ)
    (adj : String → String → ℚ) (concepts : List String) (threshold : ℚ)
    (s c : String) (acc : ℚ) :
    concepts.foldl (fun acc2 p =>
        if adj p c > 0 then acc2 + adj p c * max 0 (threshold - orZero (D s p))
        else acc2) acc
      = acc + penaltyFormula D adj concepts threshold s c := by
  rw [foldl_ite_add (fun p => adj p c > 0)
    (fun p => adj p c * max 0 (threshold - orZero (D s p))) concepts acc]
  rw [sum_map_ite, penaltyFormula]

/-- The outer Stage-2 loop over the topological order adds the parent sum
once per occurrence of the concept. -/
theorem penalty_outer_foldl (D : String → String → Option ℚ)
    (adj : String → String → ℚ) (concepts : List String) (threshold : ℚ)
    (s c : String) :
    ∀ (topo : List String) (init : ℚ),
      topo.foldl (fun acc t =>
        if t = c then
          concepts.foldl (fun acc2 p =>
            if adj p c > 0 then acc2 + adj p c * max 0 (threshold - orZero (D s p))
            else acc2) acc
        else acc) init
      = init + (topo.count c : ℚ) * penaltyFormula D adj concepts threshold s c := by
  intro topo
  induction topo with
  | nil => intro init; simp
  | cons t tl ih =>
    intro init
    simp only [List.foldl_cons, List.count_cons]
    by_cases h : t = c
    · rw [if_pos h, penalty_inner_foldl, ih]
      simp only [h, beq_self_eq_true, if_true]
      push_cast
      ring
    · rw [if_neg h, ih]
      simp only [beq_iff_eq, h, if_false]
      push_cast
      ring

/-- `compute_prerequisite_penalty` equals the claim's parent-sum formula
whenever the concept occurs exactly once in the traversal order. -/
theorem penalty_eq_formula (D : String → String → Option ℚ)
    (adj : String → String → ℚ) (concepts topo : List String) (threshold : ℚ)
    (s c : String) (h : topo.count c = 1) :
    compute_prerequisite_penalty D adj concepts topo threshold s c
      = penaltyFormula D adj concepts threshold s c := by
  rw [compute_prerequisite_penalty, penalty_outer_foldl, h]
  push_cast
  ring

/-- `compute_downstream_boost` equals the claim's capped child-sum formula. -/
theorem boost_eq_formula (D : String → String → Option ℚ)
    (adj : String → String → ℚ) (concepts : List String) (s p : String) :
    compute_downstream_boost D adj concepts s p = boostFormula D adj concepts s p := by
  rw [compute_downstream_boost, boostFormula,
    foldl_ite_add (fun d => adj p d > 0)
      (fun d => (adj p d * 0.4) * orZero (D s d)) concepts 0,
    sum_map_ite, zero_add, min_comm]

/-- The clamp keeps every value at or above 0. -/
theorem clamp01_nonneg (x : ℚ) : 0 ≤ clamp01 x :=
  le_min (le_max_right x 0) (by norm_num)

/-- The clamp keeps every value at or below 1. -/
theorem clamp01_le_one (x : ℚ) : clamp01 x ≤ 1 := min_le_right _ _

/-- The Kahn ordering is always a permutation of its input node list. -/
theorem kahnOrder_perm (edges : List GraphEdge) :
    ∀ (fuel : Nat) (rem : List String), (kahnOrder fuel edges rem).Perm rem := by
  intro fuel
  induction fuel with
  | zero => intro rem; exact List.Perm.refl rem
  | succ f ih =>
    intro rem
    rw [kahnOrder]
    by_cases h : (rem.filter (fun n => ! hasIncomingFrom edges rem n)).isEmpty
    · simp only [h, if_true]
      exact List.Perm.refl rem
    · simp only [h, if_false]
      refine List.Perm.trans
        (List.Perm.append_left _ (ih (rem.filter (fun n => hasIncomingFrom edges rem n))))
        ?_
      refine List.Perm.trans List.perm_append_comm ?_
      exact List.filter_append_perm (fun n => hasIncomingFrom edges rem n) rem

/-- The topological order used by the pipeline is a permutation of the
sorted concept list, so each concept occurs in it exactly once. -/
theorem topo_count_one (g : GraphJson) (c : String)
    (hc : c ∈ graphNodeIds g) :
    (get_topological_order g).count c = 1 := by
  rw [get_topological_order,
    (kahnOrder_perm g.edges (graphNodeIds g).length (graphNodeIds g)).count_eq]
  exact List.count_eq_one_of_mem (List.nodup_dedup _) hc

/-- The trace's listed upstream penalty contributions sum to the claim's
parent-sum formula: a positive-weight parent with a positive gap contributes
`edge_weight * gap`, and every other parent contributes 0. -/
theorem upstream_contributions_sum (D : String → String → Option ℚ)
    (adj : String → String → ℚ) (threshold : ℚ) (s c : String) :
    ∀ concepts : List String,
      (((concepts.filterMap (upstreamEntry D adj threshold s c)).map
          (fun u => u.penalty_contribution)).sum)
      = penaltyFormula D adj concepts threshold s c := by
  intro concepts
  induction concepts with
  | nil => simp [penaltyFormula]
  | cons p tl ih =>
    by_cases hw : adj p c > 0
    · have hfc : List.filter (fun p => decide (adj p c > 0)) (p :: tl)
          = p :: List.filter (fun p => decide (adj p c > 0)) tl := by
        simp [List.filter_cons, hw]
      by_cases hg : max 0 (threshold - orZero (D s p)) > 0
      · have he : upstreamEntry D adj threshold s c p
            = some { concept_id := p, readiness := sanitizeFloat (orZero (D s p)),
                     edge_weight := sanitizeFloat (adj p c),
                     penalty_contribution :=
                       sanitizeFloat (adj p c * max 0 (threshold - orZero (D s p))) } := by
          rw [upstreamEntry, if_pos hw, if_pos hg]
        rw [List.filterMap_cons, he]
        rw [penaltyFormula, hfc, List.map_cons, List.sum_cons, List.map_cons,
          List.sum_cons, ← penaltyFormula, ih]
        rfl
      · have hz : max 0 (threshold - orZero (D s p)) = 0 :=
          le_antisymm (not_lt.mp hg) (le_max_left _ _)
        have he : upstreamEntry D adj threshold s c p = none := by
          rw [upstreamEntry, if_pos hw, if_neg hg]
        rw [List.filterMap_cons, he]
        rw [penaltyFormula, hfc, List.map_cons, List.sum_cons, ← penaltyFormula,
          ih, hz, mul_zero, zero_add]
    · have he : upstreamEntry D adj threshold s c p = none := by
        rw [upstreamEntry, if_neg hw]
      have hfc : List.filter (fun p => decide (adj p c > 0)) (p :: tl)
          = List.filter (fun p => decide (adj p c > 0)) tl := by
        simp [List.filter_cons, hw]
      rw [List.filterMap_cons, he]
      rw [penaltyFormula, hfc, ← penaltyFormula, ih]

/-- The source's tagged-question-count branch produces the label of the
claim's level. -/
theorem f1_label (n : Nat) :
    (if n ≥ 3 then "high" else if n = 2 then "medium" else "low")
      = (questionCountLevel n).toLabel := by
  rw [questionCountLevel]
  split_ifs <;> rfl

/-- The source's points-coverage branch produces the label of the claim's
level. -/
theorem f2_label (p : ℚ) :
    (if p ≥ 10 then "high" else if p ≥ 5 then "medium" else "low")
      = (pointsLevel p).toLabel := by
  rw [pointsLevel]
  split_ifs <;> rfl

/-- The source's variance branch produces the label of the claim's level. -/
theorem f3_label (v : ℚ) :
    (if v < 0.15 then "high" else if v ≤ 0.30 then "medium" else "low")
      = (varianceLevel v).toLabel := by
  rw [varianceLevel]
  split_ifs <;> rfl

/-- The source's numeric level encoding, minimum, and decoding agree with
taking the weakest of the three levels directly. -/
theorem level_encode (a b c : ConfLevel) :
    (if (min (if a.toLabel = "high" then 3 else if a.toLabel = "medium" then 2 else (1 : Nat))
          (min (if b.toLabel = "high" then 3 else if b.toLabel = "medium" then 2 else 1)
            (if c.toLabel = "high" then 3 else if c.toLabel = "medium" then 2 else 1))) = 3
      then "high"
      else if (min (if a.toLabel = "high" then 3 else if a.toLabel = "medium" then 2 else (1 : Nat))
          (min (if b.toLabel = "high" then 3 else if b.toLabel = "medium" then 2 else 1)
            (if c.toLabel = "high" then 3 else if c.toLabel = "medium" then 2 else 1))) = 2
      then "medium" else "low")
      = (minLevel a (minLevel b c)).toLabel := by
  cases a <;> cases b <;> cases c <;> rfl

/-- `compute_confidence` agrees with the claim's three-factor weakest-level
formula. -/
theorem compute_confidence_eq_formula (concept : String)
    (question_concept_map : QCMap) (max_scores : MaxScores)
    (D : String → String → Option ℚ) (concepts students : List String)
    (adj : String → String → ℚ) :
    compute_confidence concept question_concept_map max_scores D concepts students adj
      = confidenceFormula concept question_concept_map max_scores D concepts students adj := by
  rw [compute_confidence, confidenceFormula]
  simp only []
  rw [f1_label, f2_label, f3_label, level_encode]

/-! Claim theorems. -/

/-- C3: for a student who attempted at least one of the concept's tagged
questions with positive total tag weight, direct readiness equals the
weighted-average formula over the attempted questions (max scores are
nonnegative per the documented ScoreMatrix invariant `score ∈ [0, max]`; a
zero max score normalises to 0 on both sides); if the student attempted none
of the tagged questions, or the concept has no tagged questions, direct
readiness is missing, not zero. -/
theorem direct_readiness_correct (scores : Scores) (max_scores : MaxScores)
    (question_concept_map : QCMap) (student concept : String) :
    ((∀ qw ∈ taggedOf question_concept_map concept, 0 ≤ msOf max_scores qw.1) →
      attemptedOf scores question_concept_map student concept ≠ [] →
      0 < ((attemptedOf scores question_concept_map student concept).map Prod.snd).sum →
      compute_direct_readiness scores max_scores question_concept_map student concept
        = some (directReadinessFormula scores max_scores question_concept_map student concept))
    ∧ ((taggedOf question_concept_map concept = []
        ∨ attemptedOf scores question_concept_map student concept = []) →
      compute_direct_readiness scores max_scores question_concept_map student concept
        = none) := by
  have hfold := direct_foldl (dictGetD scores student []) max_scores
    (dictGetD question_concept_map concept []) 0 0
  constructor
  · intro hms hne hpos
    rw [compute_direct_readiness]
    simp only [hfold, zero_add]
    simp only [attemptedOf, taggedOf, attemptedQuestions] at hpos ⊢
    rw [if_pos hpos]
    rw [directReadinessFormula]
    simp only [attemptedOf, taggedOf, attemptedQuestions]
    congr 1
    congr 1
    apply congrArg List.sum
    apply List.map_congr_left
    intro qw hqw
    have hqt : qw ∈ dictGetD question_concept_map concept [] :=
      List.mem_of_mem_filter hqw
    have hm : 0 ≤ msOf max_scores qw.1 := by
      have := hms qw
      simp only [taggedOf] at this
      exact this hqt
    by_cases hpos' : msOf max_scores qw.1 > 0
    · rw [if_pos hpos']
    · rw [if_neg hpos']
      have h0 : msOf max_scores qw.1 = 0 := le_antisymm (not_lt.mp hpos') hm
      rw [h0, div_zero, mul_zero]
  · intro hcase
    have hatt : attemptedOf scores question_concept_map student concept = [] := by
      rcases hcase with h | h
      · simp only [attemptedOf, h, attemptedQuestions, List.filter_nil]
      · exact h
    rw [compute_direct_readiness]
    simp only [hfold, zero_add]
    simp only [attemptedOf, taggedOf] at hatt
    rw [hatt]
    simp

/-- C4: the prerequisite penalty is the sum over parents of
`edge_weight * max(0, threshold - parent direct readiness)` with missing
readiness treated as 0 (for any traversal order visiting the concept
exactly once); a parent at or above threshold contributes a zero term; and
one parent edge of weight 0.7 with parent readiness 0.3 at threshold 0.6
yields penalty exactly 0.21. -/
theorem prerequisite_penalty_correct :
    (∀ (D : String → String → Option ℚ) (adj : String → String → ℚ)
        (concepts topo : List String) (threshold : ℚ) (s c : String),
      topo.count c = 1 →
      compute_prerequisite_penalty D adj concepts topo threshold s c
        = penaltyFormula D adj concepts threshold s c)
    ∧ (∀ (D : String → String → Option ℚ) (adj : String → String → ℚ)
        (threshold : ℚ) (s p c : String),
      threshold ≤ orZero (D s p) →
      adj p c * max 0 (threshold - orZero (D s p)) = 0)
    ∧ compute_prerequisite_penalty
        (fun _ c => if c = "P" then some 0.3 else none)
        (fun p c => if p = "P" ∧ c = "C" then 0.7 else 0)
        ["C", "P"] ["P", "C"] 0.6 "S1" "C" = 0.21 := by
  refine ⟨fun D adj concepts topo threshold s c h => penalty_eq_formula D adj concepts topo threshold s c h, ?_, ?_⟩
  · intro D adj threshold s p c h
    have : max 0 (threshold - orZero (D s p)) = 0 :=
      max_eq_left (by linarith)
    rw [this, mul_zero]
  · simp +decide [compute_prerequisite_penalty, orZero]
    norm_num

/-- C5: the downstream boost equals `min(0.2, sum over children of
(edge_weight * 0.4) * child direct readiness)` with missing readiness
treated as 0, it never exceeds 0.2, and with a single child of edge weight
0.8 and readiness 0.9 it is capped at 0.2 while the uncapped value 0.288
exceeds 0.2. -/
theorem downstream_boost_correct :
    (∀ (D : String → String → Option ℚ) (adj : String → String → ℚ)
        (concepts : List String) (s p : String),
      compute_downstream_boost D adj concepts s p = boostFormula D adj concepts s p)
    ∧ (∀ (D : String → String → Option ℚ) (adj : String → String → ℚ)
        (concepts : List String) (s p : String),
      compute_downstream_boost D adj concepts s p ≤ 0.2)
    ∧ (compute_downstream_boost
        (fun _ c => if c = "C" then some 0.9 else none)
        (fun p c => if p = "P" ∧ c = "C" then 0.8 else 0)
        ["C", "P"] "S1" "P" = 0.2
      ∧ (0.2 : ℚ) < (0.8 * 0.4) * 0.9) := by
  refine ⟨boost_eq_formula, ?_,
    by simp +decide [compute_downstream_boost, orZero]; norm_num, by norm_num⟩
  intro D adj concepts s p
  rw [compute_downstream_boost]
  exact min_le_right _ _

/-- C1: every entry of the final readiness matrix and every reported
`final_readiness` value lies in `[0, 1]`, for arbitrary inputs (missing
scores, zero max scores and disconnected nodes included).  Over the
rationals every value is finite by construction, so "never NaN/Inf" holds by
the embedding, and these bounds are exactly the source's two pipeline
assertions (compute_service.py lines 392-394), which therefore never fire. -/
theorem final_readiness_bounded (scores : Scores) (max_scores : MaxScores)
    (question_concept_map : QCMap) (graph_json : GraphJson)
    (alpha beta gamma threshold : ℚ) :
    (∀ s c,
      0 ≤ (run_readiness_pipeline scores max_scores question_concept_map graph_json
            alpha beta gamma threshold).final_readiness_matrix s c
      ∧ (run_readiness_pipeline scores max_scores question_concept_map graph_json
            alpha beta gamma threshold).final_readiness_matrix s c ≤ 1)
    ∧ (∀ r ∈ (run_readiness_pipeline scores max_scores question_concept_map graph_json
            alpha beta gamma threshold).readiness_results,
      0 ≤ r.final_readiness ∧ r.final_readiness ≤ 1) := by
  constructor
  · intro s c
    exact ⟨clamp01_nonneg _, clamp01_le_one _⟩
  · intro r hr
    simp only [run_readiness_pipeline, pipelineFrom, List.mem_flatMap,
      List.mem_map] at hr
    obtain ⟨s, hs, c, hc, rfl⟩ := hr
    exact ⟨clamp01_nonneg _, clamp01_le_one _⟩

/-- C2: for fixed inputs two invocations of the pipeline produce identical
final readiness and confidence sequences, two invocations of the clustering
(whose fixed seed is modelled by its deterministic initialisation) produce
identical cluster label and membership-count sequences, and the student and
concept orderings are the lexicographically sorted identifier sets. -/
theorem pipeline_deterministic (scores : Scores) (max_scores : MaxScores)
    (question_concept_map : QCMap) (graph_json : GraphJson)
    (alpha beta gamma threshold : ℚ) (M : String → String → ℚ)
    (cs ss : List String) (k : Nat) :
    ((run_readiness_pipeline scores max_scores question_concept_map graph_json
        alpha beta gamma threshold).readiness_results.map
          (fun r => (r.final_readiness, r.confidence))
      = (run_readiness_pipeline scores max_scores question_concept_map graph_json
        alpha beta gamma threshold).readiness_results.map
          (fun r => (r.final_readiness, r.confidence)))
    ∧ ((run_clustering M cs ss k).clusters.map
          (fun cl => (cl.cluster_label, cl.student_count))
      = (run_clustering M cs ss k).clusters.map
          (fun cl => (cl.cluster_label, cl.student_count)))
    ∧ (run_readiness_pipeline scores max_scores question_concept_map graph_json
        alpha beta gamma threshold).students
      = sortStrings ((scores.map Prod.fst).dedup)
    ∧ (run_readiness_pipeline scores max_scores question_concept_map graph_json
        alpha beta gamma threshold).concepts
      = sortStrings (graphNodeIds graph_json)
    ∧ List.Sorted (· ≤ ·)
        (run_readiness_pipeline scores max_scores question_concept_map graph_json
          alpha beta gamma threshold).students
    ∧ ((run_readiness_pipeline scores max_scores question_concept_map graph_json
          alpha beta gamma threshold).students).Perm ((scores.map Prod.fst).dedup)
    ∧ List.Sorted (· ≤ ·)
        (run_readiness_pipeline scores max_scores question_concept_map graph_json
          alpha beta gamma threshold).concepts
    ∧ ((run_readiness_pipeline scores max_scores question_concept_map graph_json
          alpha beta gamma threshold).concepts).Perm (graphNodeIds graph_json) :=
  ⟨rfl, rfl, rfl, rfl,
    List.sorted_insertionSort _ _,
    List.perm_insertionSort _ _,
    List.sorted_insertionSort _ _,
    List.perm_insertionSort _ _⟩

/-- C6: for every reported cell, clamping the trace formula's
`direct_component - penalty_component + boost_component` into `[0, 1]`
reproduces the reported final readiness exactly (over `ℚ`; floating-point
tolerance is not needed), and for a nonzero `beta` the penalty component
divided by `beta` equals the sum of the listed upstream penalty
contributions. -/
theorem trace_reconstructs_final (scores : Scores) (max_scores : MaxScores)
    (question_concept_map : QCMap) (graph_json : GraphJson)
    (alpha beta gamma threshold : ℚ) :
    ∀ r ∈ (run_readiness_pipeline scores max_scores question_concept_map graph_json
        alpha beta gamma threshold).readiness_results,
      clamp01 (r.explanation_trace.formula.direct_component
          - r.explanation_trace.formula.penalty_component
          + r.explanation_trace.formula.boost_component)
        = r.final_readiness
      ∧ (beta ≠ 0 →
          r.explanation_trace.formula.penalty_component / beta
            = ((r.explanation_trace.upstream_penalties).map
                (fun u => u.penalty_contribution)).sum) := by
  intro r hr
  simp only [run_readiness_pipeline, pipelineFrom, List.mem_flatMap,
    List.mem_map] at hr
  obtain ⟨s, hs, c, hc, rfl⟩ := hr
  constructor
  · rfl
  · intro hb
    simp only [build_explanation_trace, sanitizeFloat]
    rw [mul_div_cancel_left₀ _ hb]
    rw [upstream_contributions_sum]
    apply penalty_eq_formula
    apply topo_count_one
    have hmem : c ∈ sortStrings (graphNodeIds graph_json) := hc
    exact (List.perm_insertionSort _ _).mem_iff.mp hmem

/-- C7: every reported cell's confidence equals the claim's minimum of the
three factor levels, computed from concept-level data only, and any two
cells on the same concept carry the same confidence label. -/
theorem confidence_correct (scores : Scores) (max_scores : MaxScores)
    (question_concept_map : QCMap) (graph_json : GraphJson)
    (alpha beta gamma threshold : ℚ) :
    ∀ r ∈ (run_readiness_pipeline scores max_scores question_concept_map graph_json
        alpha beta gamma threshold).readiness_results,
      r.confidence
        = confidenceFormula r.concept_id question_concept_map max_scores
            (run_readiness_pipeline scores max_scores question_concept_map graph_json
              alpha beta gamma threshold).direct_readiness_matrix
            (run_readiness_pipeline scores max_scores question_concept_map graph_json
              alpha beta gamma threshold).concepts
            (run_readiness_pipeline scores max_scores question_concept_map graph_json
              alpha beta gamma threshold).students
            (run_readiness_pipeline scores max_scores question_concept_map graph_json
              alpha beta gamma threshold).adjacency
      ∧ ∀ r' ∈ (run_readiness_pipeline scores max_scores question_concept_map graph_json
            alpha beta gamma threshold).readiness_results,
          r'.concept_id = r.concept_id → r'.confidence = r.confidence := by
  intro r hr
  simp only [run_readiness_pipeline, pipelineFrom, List.mem_flatMap,
    List.mem_map] at hr
  obtain ⟨s, hs, c, hc, rfl⟩ := hr
  constructor
  · exact compute_confidence_eq_formula c question_concept_map max_scores _ _ _ _
  · intro r' hr' hcc
    simp only [run_readiness_pipeline, pipelineFrom, List.mem_flatMap,
      List.mem_map] at hr'
    obtain ⟨s', hs', c', hc', rfl⟩ := hr'
    simp only at hcc
    rw [hcc]

/-- Replacing an edge record's absent weight by an explicit 0.5 leaves the
built adjacency matrix unchanged. -/
theorem adjacencyOf_default_half (eds1 eds2 : List GraphEdge) (u v : String) :
    adjacencyOf (eds1 ++ { source := u, target := v, weight := none } :: eds2)
      = adjacencyOf (eds1 ++ { source := u, target := v, weight := some 0.5 } :: eds2) := by
  funext a b
  rw [adjacencyOf, adjacencyOf, List.foldl_append, List.foldl_append,
    List.foldl_cons, List.foldl_cons]
  rfl

/-- Incoming-edge tests ignore the weight field. -/
theorem hasIncomingFrom_default_half (eds1 eds2 : List GraphEdge) (u v : String)
    (rem : List String) (n : String) :
    hasIncomingFrom (eds1 ++ { source := u, target := v, weight := none } :: eds2) rem n
      = hasIncomingFrom (eds1 ++ { source := u, target := v, weight := some 0.5 } :: eds2) rem n := by
  rw [hasIncomingFrom, hasIncomingFrom, List.any_append, List.any_append,
    List.any_cons, List.any_cons]

/-- Kahn orderings agree for edge lists with pointwise-equal incoming-edge
tests. -/
theorem kahnOrder_congr (l1 l2 : List GraphEdge)
    (h : ∀ rem n, hasIncomingFrom l1 rem n = hasIncomingFrom l2 rem n) :
    ∀ (fuel : Nat) (rem : List String), kahnOrder fuel l1 rem = kahnOrder fuel l2 rem := by
  intro fuel
  induction fuel with
  | zero => intro rem; rfl
  | succ f ih =>
    intro rem
    rw [kahnOrder, kahnOrder]
    have hf1 : rem.filter (fun n => ! hasIncomingFrom l1 rem n)
        = rem.filter (fun n => ! hasIncomingFrom l2 rem n) :=
      List.filter_congr (fun a _ => by rw [h rem a])
    have hf2 : rem.filter (fun n => hasIncomingFrom l1 rem n)
        = rem.filter (fun n => hasIncomingFrom l2 rem n) :=
      List.filter_congr (fun a _ => by rw [h rem a])
    rw [hf1, hf2, ih]

/-- C10: an edge record carrying no weight behaves exactly as one with
weight 0.5 — the whole pipeline result (adjacency, penalties, boosts,
traces, confidence, every reported cell) is unchanged when the absent
weight is replaced by an explicit 0.5. -/
theorem default_edge_weight_half (scores : Scores) (max_scores : MaxScores)
    (question_concept_map : QCMap) (nodes : List GraphNode)
    (eds1 eds2 : List GraphEdge) (u v : String)
    (alpha beta gamma threshold : ℚ) :
    run_readiness_pipeline scores max_scores question_concept_map
        { nodes := nodes, edges := eds1 ++ { source := u, target := v, weight := none } :: eds2 }
        alpha beta gamma threshold
      = run_readiness_pipeline scores max_scores question_concept_map
        { nodes := nodes, edges := eds1 ++ { source := u, target := v, weight := some 0.5 } :: eds2 }
        alpha beta gamma threshold := by
  have htopo : get_topological_order
      { nodes := nodes, edges := eds1 ++ { source := u, target := v, weight := none } :: eds2 }
      = get_topological_order
      { nodes := nodes, edges := eds1 ++ { source := u, target := v, weight := some 0.5 } :: eds2 } := by
    rw [get_topological_order, get_topological_order]
    exact kahnOrder_congr _ _ (hasIncomingFrom_default_half eds1 eds2 u v) _ _
  rw [run_readiness_pipeline, run_readiness_pipeline]
  rw [htopo]
  have hadj := adjacencyOf_default_half eds1 eds2 u v
  exact congrArg (fun f => pipelineFrom scores max_scores question_concept_map _ _ f _
    alpha beta gamma threshold) hadj

theorem apply_patch_err_case (g : GraphJson) (p : GraphPatchRequest)
    (h : (patchErrors g p).isEmpty = false) :
    apply_patch g p = (g, isDagB g, none, patchErrors g p) := by
  rw [apply_patch]
  simp [h]

theorem apply_patch_cycle_case (g : GraphJson) (p : GraphPatchRequest)
    (path : List String) (he : (patchErrors g p).isEmpty = true)
    (hc : findCyclePath (applyEdits g p) = some path) :
    apply_patch g p = (g, false, some path, [{ message := "cycle detected" }]) := by
  rw [apply_patch]
  simp [he, hc]

theorem apply_patch_ok_case (g : GraphJson) (p : GraphPatchRequest)
    (he : (patchErrors g p).isEmpty = true)
    (hc : findCyclePath (applyEdits g p) = none) :
    apply_patch g p = (applyEdits g p, true, none, []) := by
  rw [apply_patch]
  simp [he, hc]

/-- C8: a patch that would introduce a cycle (its node-level validation
passes but the tentatively patched graph is cyclic) is rejected atomically
— the returned graph is the original (so its edge set is exactly the prior
edge set), `is_dag` is false, a cycle path is reported, and the error list
is nonempty.  Moreover any accepted (`is_dag = true`) result graph is
acyclic, and every result is either the untouched original or the fully
patched candidate — a patch fully succeeds or fully fails. -/
theorem apply_patch_atomic_on_cycle :
    (∀ (g : GraphJson) (p : GraphPatchRequest),
      patchErrors g p = [] →
      isDagB (applyEdits g p) = false →
      (apply_patch g p).1 = g
      ∧ (apply_patch g p).2.1 = false
      ∧ (apply_patch g p).2.2.1.isSome = true
      ∧ (apply_patch g p).2.2.2 ≠ [])
    ∧ (∀ (g : GraphJson) (p : GraphPatchRequest),
      isDagB g = true → (apply_patch g p).2.1 = true →
      isDagB (apply_patch g p).1 = true)
    ∧ (∀ (g : GraphJson) (p : GraphPatchRequest),
      (apply_patch g p).1 = g ∨ (apply_patch g p).1 = applyEdits g p) := by
  refine ⟨?_, ?_, ?_⟩
  · intro g p he hc
    have hemp : (patchErrors g p).isEmpty = true := by rw [he]; rfl
    rw [isDagB, Option.isNone_eq_false_iff, Option.isSome_iff_exists] at hc
    obtain ⟨path, hp⟩ := hc
    rw [apply_patch_cycle_case g p path hemp hp]
    simp
  · intro g p hg hflag
    rcases hemp : (patchErrors g p).isEmpty with _ | _
    · rw [apply_patch_err_case g p hemp] at hflag ⊢
      exact hg
    · rcases hcp : findCyclePath (applyEdits g p) with _ | path
      · rw [apply_patch_ok_case g p hemp hcp]
        rw [isDagB, hcp]
        rfl
      · rw [apply_patch_cycle_case g p path hemp hcp] at hflag
        exact absurd hflag (by simp)
  · intro g p
    rcases hemp : (patchErrors g p).isEmpty with _ | _
    · rw [apply_patch_err_case g p hemp]
      exact Or.inl rfl
    · rcases hcp : findCyclePath (applyEdits g p) with _ | path
      · rw [apply_patch_ok_case g p hemp hcp]
        exact Or.inr rfl
      · rw [apply_patch_cycle_case g p path hemp hcp]
        exact Or.inl rfl

/-- C9: invoking the compute runner with no score rows, or with no
question-concept-mapping rows, fails with the corresponding input-data
error and leaves the stored derived state (readiness results, aggregates,
clusters, interventions) exactly as it was — no partial computation is
produced or persisted. -/
theorem input_error_no_partial_results (db : DbState)
    (score_rows : List ScoreRow) (qcm_rows : List QcmRow) (graph_json : GraphJson)
    (alpha beta gamma threshold : ℚ) (k : Nat) :
    score_rows = [] ∨ qcm_rows = [] →
    (run_compute_pipeline_for_run db score_rows qcm_rows graph_json
        alpha beta gamma threshold k).1 = db
    ∧ (run_compute_pipeline_for_run db score_rows qcm_rows graph_json
        alpha beta gamma threshold k).2
      = Except.error (if score_rows.isEmpty then InputDataError.noScores
          else InputDataError.noMapping) := by
  intro h
  rcases h with h | h
  · subst h
    simp [run_compute_pipeline_for_run]
  · subst h
    rcases hs : score_rows.isEmpty with _ | _
    · simp [run_compute_pipeline_for_run, hs]
    · simp [run_compute_pipeline_for_run, hs]

/-! Concrete inputs for witness instantiations. -/

/-- Two students over two questions. -/
def wScores : Scores := [("S1", [("Q1", 3), ("Q2", 8)]), ("S2", [("Q1", 9), ("Q2", 2)])]

/-- Max scores for the witness questions. -/
def wMax : MaxScores := [("Q1", 10), ("Q2", 10)]

/-- Q1 probes concept P, Q2 probes concept C. -/
def wQcm : QCMap := [("P", [("Q1", 1)]), ("C", [("Q2", 1)])]

/-- Witness graph: single prerequisite edge P -> C of weight 0.7. -/
def wGraph : GraphJson :=
  { nodes := [{ id := "P", label := "Parent" }, { id := "C", label := "Child" }]
    edges := [{ source := "P", target := "C", weight := some 0.7 }] }

/-- Witness pipeline run with alpha 1, beta 1, gamma 0.2, threshold 0.6. -/
def wRes : PipelineResult := run_readiness_pipeline wScores wMax wQcm wGraph 1 1 0.2 0.6

/-- Placeholder cell for total list indexing in witness statements. -/
def dummyCell : ReadinessCellR :=
  { student_id := "", concept_id := "", direct_readiness := none
    prerequisite_penalty := 0, downstream_boost := 0, final_readiness := 0
    confidence := ""
    explanation_trace :=
      { concept_id := "", student_id := "", direct_readiness := none, confidence := ""
        upstream_penalties := [], downstream_boosts := []
        formula := { alpha := 0, beta := 0, gamma := 0, direct_component := 0,
                     penalty_component := 0, boost_component := 0, final_readiness := 0 } } }

/-- The conftest sample graph: limits -> derivatives -> {chain rule, integrals}. -/
def wSampleGraph : GraphJson :=
  { nodes := [{ id := "C_limits", label := "Limits" },
              { id := "C_derivatives", label := "Derivatives" },
              { id := "C_chain_rule", label := "Chain Rule" },
              { id := "C_integrals", label := "Integrals" }]
    edges := [{ source := "C_limits", target := "C_derivatives", weight := some 0.7 },
              { source := "C_derivatives", target := "C_chain_rule", weight := some 0.8 },
              { source := "C_derivatives", target := "C_integrals", weight := some 0.5 }] }

/-- A patch adding the edge chain rule -> limits, closing a 3-cycle. -/
def wCyclePatch : GraphPatchRequest :=
  { add_edges := [{ source := "C_chain_rule", target := "C_limits", weight := some 0.5 }] }

/-- An empty persisted state. -/
def wDb : DbState :=
  { readiness := [], aggregates := [], clusters := [], assignments := [], interventions := [] }

/-! Witnesses. -/

/-- Witness for C1 at the concrete two-student input. -/
theorem final_readiness_bounded_witness :
    (0 ≤ wRes.final_readiness_matrix "S1" "C" ∧ wRes.final_readiness_matrix "S1" "C" ≤ 1)
    ∧ (0 ≤ (wRes.readiness_results.getD 0 dummyCell).final_readiness
        ∧ (wRes.readiness_results.getD 0 dummyCell).final_readiness ≤ 1) :=
  ⟨(final_readiness_bounded wScores wMax wQcm wGraph 1 1 0.2 0.6).1 "S1" "C",
   (final_readiness_bounded wScores wMax wQcm wGraph 1 1 0.2 0.6).2
     (wRes.readiness_results.getD 0 dummyCell) (by with_unfolding_all decide)⟩

/-- Witness for C3: student S1 attempted Q1 on concept P (defined value), and
concept X has no tagged questions (missing value). -/
theorem direct_readiness_correct_witness :
    compute_direct_readiness wScores wMax wQcm "S1" "P"
      = some (directReadinessFormula wScores wMax wQcm "S1" "P")
    ∧ compute_direct_readiness wScores wMax wQcm "S1" "X" = none :=
  ⟨(direct_readiness_correct wScores wMax wQcm "S1" "P").1
      (by with_unfolding_all decide) (by with_unfolding_all decide)
      (by with_unfolding_all decide),
   (direct_readiness_correct wScores wMax wQcm "S1" "X").2 (Or.inl (by decide))⟩

/-- Witness for C4 at a one-parent configuration visited once in the
traversal order. -/
theorem prerequisite_penalty_correct_witness :
    List.count "C" ["P", "C"] = 1
    ∧ compute_prerequisite_penalty (fun _ c => if c = "P" then some 0.3 else none)
        (fun p c => if p = "P" ∧ c = "C" then 0.7 else 0)
        ["C", "P"] ["P", "C"] 0.6 "S1" "C"
      = penaltyFormula (fun _ c => if c = "P" then some 0.3 else none)
        (fun p c => if p = "P" ∧ c = "C" then 0.7 else 0) ["C", "P"] 0.6 "S1" "C" :=
  ⟨by decide,
   prerequisite_penalty_correct.1 (fun _ c => if c = "P" then some 0.3 else none)
     (fun p c => if p = "P" ∧ c = "C" then 0.7 else 0)
     ["C", "P"] ["P", "C"] 0.6 "S1" "C" (by decide)⟩

/-- Witness for C6 at the first reported cell of the witness run
(beta = 1). -/
theorem trace_reconstructs_final_witness :
    clamp01 ((wRes.readiness_results.getD 0 dummyCell).explanation_trace.formula.direct_component
        - (wRes.readiness_results.getD 0 dummyCell).explanation_trace.formula.penalty_component
        + (wRes.readiness_results.getD 0 dummyCell).explanation_trace.formula.boost_component)
      = (wRes.readiness_results.getD 0 dummyCell).final_readiness
    ∧ (wRes.readiness_results.getD 0 dummyCell).explanation_trace.formula.penalty_component / 1
      = (((wRes.readiness_results.getD 0 dummyCell).explanation_trace.upstream_penalties).map
          (fun u => u.penalty_contribution)).sum :=
  have h := trace_reconstructs_final wScores wMax wQcm wGraph 1 1 0.2 0.6
    (wRes.readiness_results.getD 0 dummyCell) (by with_unfolding_all decide)
  ⟨h.1, h.2 one_ne_zero⟩

/-- Witness for C7: the first cell's confidence matches the formula, and the
cell of the other student on the same concept carries the same label. -/
theorem confidence_correct_witness :
    (wRes.readiness_results.getD 0 dummyCell).confidence
      = confidenceFormula (wRes.readiness_results.getD 0 dummyCell).concept_id wQcm wMax
          wRes.direct_readiness_matrix wRes.concepts wRes.students wRes.adjacency
    ∧ (wRes.readiness_results.getD 2 dummyCell).confidence
      = (wRes.readiness_results.getD 0 dummyCell).confidence :=
  have h := confidence_correct wScores wMax wQcm wGraph 1 1 0.2 0.6
    (wRes.readiness_results.getD 0 dummyCell) (by with_unfolding_all decide)
  ⟨h.1, h.2 (wRes.readiness_results.getD 2 dummyCell)
    (by with_unfolding_all decide) (by with_unfolding_all decide)⟩

/-- Witness for C8: adding chain rule -> limits to the sample graph is
rejected atomically with a reported cycle. -/
theorem apply_patch_atomic_on_cycle_witness :
    (apply_patch wSampleGraph wCyclePatch).1 = wSampleGraph
    ∧ (apply_patch wSampleGraph wCyclePatch).2.1 = false
    ∧ (apply_patch wSampleGraph wCyclePatch).2.2.1.isSome = true
    ∧ (apply_patch wSampleGraph wCyclePatch).2.2.2 ≠ [] :=
  apply_patch_atomic_on_cycle.1 wSampleGraph wCyclePatch (by decide)
    (by with_unfolding_all decide)

/-- Witness for C9: a run with no score rows fails with the no-scores error
and leaves the empty state unchanged. -/
theorem input_error_no_partial_results_witness :
    (run_compute_pipeline_for_run wDb [] [] wSampleGraph 1 0.3 0.2 0.6 4).1 = wDb
    ∧ (run_compute_pipeline_for_run wDb [] [] wSampleGraph 1 0.3 0.2 0.6 4).2
      = Except.error InputDataError.noScores :=
  input_error_no_partial_results wDb [] [] wSampleGraph 1 0.3 0.2 0.6 4 (Or.inl rfl)

end PreReq
